import Mathlib

/-!
Shallow embedding of the ingredient-recognition and recipe-suggestion
pipeline in src/main.py, together with proofs of its specified properties.

Remote API calls (Groq chat completions) are modelled by an oracle value of
type ApiResult giving the outcome of the one call a function would make:
either a raised exception or a list of choices, each choice carrying its
message content (an Option String, since the content field may be null).
Streamlit UI calls (st.error, st.success, st.warning, st.write) and the
remote calls themselves are recorded in an event trace, so that claims of
the form "no remote call is performed" are statements about the trace.

The JPEG codec used by compress_image lives in Pillow, outside this
repository; it is modelled as an explicit encoder function passed in as a
parameter, so compress_image itself is exactly the glue the source has.
-/

namespace CookingAssistant

/-- A decoded RGB image as PIL presents it: a width, a height, and a pixel
lookup (row, column) giving an (R, G, B) triple. `width` corresponds to
`image.size[0]` and `height` to `image.size[1]`. -/
structure Img where
  width : Nat
  height : Nat
  px : Nat → Nat → Nat × Nat × Nat

/-- A grayscale (mode "L") image. -/
structure GrayImg where
  width : Nat
  height : Nat
  px : Nat → Nat → Nat

/-- The Pillow RGB → L conversion (ITU-R 601-2 luma transform as implemented
in Pillow: (r*19595 + g*38470 + b*7471 + 0x8000) >> 16). -/
def grayPx (p : Nat × Nat × Nat) : Nat :=
  (p.1 * 19595 + p.2.1 * 38470 + p.2.2 * 7471 + 32768) / 65536

/-- The `image.convert("L")` call in is_image_blurry. -/
def Img.convertL (image : Img) : GrayImg :=
  { width := image.width, height := image.height,
    px := fun r c => grayPx (image.px r c) }

/-- Clamping of a filter output to the byte range, as Pillow does for
mode "L" kernel filtering. -/
def clamp255 (v : Int) : Nat :=
  (max 0 (min 255 v)).toNat

/-- The `ImageFilter.FIND_EDGES` 3x3 convolution (kernel
-1 -1 -1 / -1 8 -1 / -1 -1 -1, scale 1, offset 0). Pillow copies the
outermost rows and columns from the source and filters interior pixels. -/
def findEdges (g : GrayImg) : GrayImg :=
  { width := g.width, height := g.height,
    px := fun r c =>
      if r = 0 ∨ c = 0 ∨ r + 1 = g.height ∨ c + 1 = g.width ∨
          g.height ≤ r ∨ g.width ≤ c then
        g.px r c
      else
        clamp255 (8 * (g.px r c : Int)
          - g.px (r - 1) (c - 1) - g.px (r - 1) c - g.px (r - 1) (c + 1)
          - g.px r (c - 1) - g.px r (c + 1)
          - g.px (r + 1) (c - 1) - g.px (r + 1) c - g.px (r + 1) (c + 1)) }

/-- Mean of all pixels of a grayscale image, over the exact rationals. -/
def npMean (g : GrayImg) : ℚ :=
  (∑ r ∈ Finset.range g.height, ∑ c ∈ Finset.range g.width, (g.px r c : ℚ)) /
    ((g.width * g.height : Nat) : ℚ)

/-- The `np.var(np.array(edges))` computation: population variance (the mean
of the squared deviations from the mean) of all pixels of the image, over
the exact rationals. -/
def npVar (g : GrayImg) : ℚ :=
  (∑ r ∈ Finset.range g.height, ∑ c ∈ Finset.range g.width,
    ((g.px r c : ℚ) - npMean g) ^ 2) / ((g.width * g.height : Nat) : ℚ)

/-- The variance of the edge-filtered grayscale image, the quantity
is_image_blurry compares against its threshold. -/
def edgeVariance (image : Img) : ℚ :=
  npVar (findEdges image.convertL)

/-- The is_image_blurry check of src/main.py (threshold defaults to 100 at
the only call site): grayscale, FIND_EDGES, variance below threshold. -/
def is_image_blurry (image : Img) (threshold : ℚ) : Bool :=
  let gray_image := image.convertL
  let edges := findEdges gray_image
  let variance := npVar edges
  decide (variance < threshold)

/-- The compress_image function of src/main.py. The JPEG encoder itself is
Pillow code, outside this repository, so it is passed in as a function
`jpegEncode` from an image and a quality setting to an encoded byte list;
compress_image applies it at the given quality (85 at the only call site). -/
def compress_image (jpegEncode : Img → Nat → List Nat) (image : Img)
    (quality : Nat) : List Nat :=
  jpegEncode image quality

/-- Outcome of one remote chat-completions call: either a raised exception
with its message, or a response carrying a list of choices, each choice
giving its message content (none models a null content field). -/
inductive ApiResult where
  | raised (msg : String)
  | ok (choices : List (Option String))
  deriving DecidableEq

/-- Observable events of a run: UI messages and remote calls. -/
inductive Event where
  | blurCheck
  | recognizerCall (payload : List Nat)
  | suggesterCall (ingredients : String) (servings : Nat)
  | uiError (msg : String)
  | uiSuccess (msg : String)
  | uiWarning (msg : String)
  | uiWrite (msg : String)
  | recipeShown (recipe : String)
  deriving DecidableEq

/-- Python truthiness of an optional string: None and the empty string are
falsy, every other string is truthy. -/
def strTruthy : Option String → Bool
  | none => false
  | some s => !(decide (s = ""))

/-- The analyze_ingredient function of src/main.py, as a function of the
compressed image bytes and the oracle for its one remote call. It returns
`response.choices[0].message.content` when the choices list is truthy and
the first content is truthy, and otherwise reports an error to the user and
returns None. A raised exception is caught and reported. -/
def analyze_ingredient (image_bytes : List Nat) (api : ApiResult) :
    Option String × List Event :=
  match api with
  | .raised e =>
    (none, [.recognizerCall image_bytes, .uiError ("An error occurred: " ++ e)])
  | .ok choices =>
    match choices.head? with
    | some c =>
      if strTruthy c then
        (c, [.recognizerCall image_bytes])
      else
        (none, [.recognizerCall image_bytes,
          .uiError "Failed to identify ingredients. Please try again."])
    | none =>
      (none, [.recognizerCall image_bytes,
        .uiError "Failed to identify ingredients. Please try again."])

/-- The suggest_single_recipe function of src/main.py, as a function of the
aggregated ingredients string, the servings count, and the oracle for its
one remote call. -/
def suggest_single_recipe (ingredients : String) (servings : Nat)
    (api : ApiResult) : Option String × List Event :=
  match api with
  | .raised e =>
    (none, [.suggesterCall ingredients servings,
      .uiError ("An error occurred: " ++ e)])
  | .ok choices =>
    match choices.head? with
    | some c =>
      if strTruthy c then
        (c, [.suggesterCall ingredients servings])
      else
        (none, [.suggesterCall ingredients servings,
          .uiError "Failed to suggest a recipe. Please try again."])
    | none =>
      (none, [.suggesterCall ingredients servings,
        .uiError "Failed to suggest a recipe. Please try again."])

/-- The process_image function of src/main.py: resolution floor, blur check,
compression, then the recognizer call. The blurCheck event records that the
blur computation ran. -/
def process_image (jpegEncode : Img → Nat → List Nat) (image : Img)
    (api : ApiResult) : Option String × List Event :=
  if image.width < 300 ∨ image.height < 300 then
    (none, [.uiError "The resolution is too low. Please upload a higher-resolution image."])
  else if is_image_blurry image 100 then
    (none, [.blurCheck,
      .uiError "The image is too blurry. Please upload a clearer image."])
  else
    let compressed_image_bytes := compress_image jpegEncode image 85
    let r := analyze_ingredient compressed_image_bytes api
    (r.1, .blurCheck :: r.2)

/-- State-passing embedding of the Quality Gate portion of process_image
(the resolution check and the blur check, src/main.py lines 144 to 152):
alongside the verdict (a rejection reason, or none for pass) it returns the
image object the caller continues with, to express that the gate never
mutates the image. -/
def quality_gate (image : Img) : Option String × Img :=
  if image.width < 300 ∨ image.height < 300 then
    (some "The resolution is too low. Please upload a higher-resolution image.", image)
  else
    let gray_image := image.convertL
    let edges := findEdges gray_image
    let variance := npVar edges
    if variance < 100 then
      (some "The image is too blurry. Please upload a clearer image.", image)
    else
      (none, image)

/-- One uploaded file: a name, the decoded image, and the oracle for the
recognizer call the pipeline would make for it. -/
structure Upload where
  name : String
  image : Img
  api : ApiResult

/-- One camera capture: the decoded image and its recognizer oracle. -/
structure Camera where
  image : Img
  api : ApiResult

/-- The `for uploaded_file in uploaded_files` loop of src/main.py: processes
each upload in order, appending truthy recognition results to
ingredients_list and emitting a success message for each. -/
def gatherUploads (jpegEncode : Img → Nat → List Nat) :
    List Upload → List String × List Event
  | [] => ([], [])
  | u :: rest =>
    let r := process_image jpegEncode u.image u.api
    let tail := gatherUploads jpegEncode rest
    match r.1 with
    | some ingredients =>
      if ingredients = "" then
        (tail.1, r.2 ++ tail.2)
      else
        (ingredients :: tail.1,
          r.2 ++ [.uiSuccess ("Identified Ingredients in " ++ u.name ++ ": " ++ ingredients)]
            ++ tail.2)
    | none => (tail.1, r.2 ++ tail.2)

/-- The `if uploaded_files: ... elif camera_image: ...` branch of
src/main.py that builds ingredients_list. -/
def ingredients_phase (jpegEncode : Img → Nat → List Nat)
    (uploaded_files : List Upload) (camera_image : Option Camera) :
    List String × List Event :=
  if !uploaded_files.isEmpty then
    gatherUploads jpegEncode uploaded_files
  else
    match camera_image with
    | some cam =>
      let r := process_image jpegEncode cam.image cam.api
      match r.1 with
      | some ingredients =>
        if ingredients = "" then
          ([], r.2)
        else
          ([ingredients], r.2 ++ [.uiSuccess ("Identified Ingredients: " ++ ingredients)])
      | none => ([], r.2)
    | none => ([], [])

/-- The whole run of src/main.py below the UI widgets: build
ingredients_list, and if it is truthy, join it with ", ", announce it, call
the Suggester once and either show the recipe or report failure; if it is
empty, warn the user to supply images. The first component is the recipe
shown to the user, if any. -/
def runPipeline (jpegEncode : Img → Nat → List Nat)
    (uploaded_files : List Upload) (camera_image : Option Camera)
    (servings : Nat) (suggestApi : ApiResult) : Option String × List Event :=
  let p := ingredients_phase jpegEncode uploaded_files camera_image
  let ingredients_list := p.1
  if !ingredients_list.isEmpty then
    let all_ingredients := String.intercalate ", " ingredients_list
    let s := suggest_single_recipe all_ingredients servings suggestApi
    match s.1 with
    | some recipe =>
      if recipe = "" then
        (none, p.2 ++ [.uiWrite ("**All identified ingredients:** " ++ all_ingredients)]
          ++ s.2 ++ [.uiError "Failed to suggest a recipe based on the identified ingredients."])
      else
        (some recipe, p.2 ++ [.uiWrite ("**All identified ingredients:** " ++ all_ingredients)]
          ++ s.2 ++ [.uiWrite "### Suggested Recipe", .recipeShown recipe,
            .uiWrite "### You might also like these recipe sources:"])
    | none =>
      (none, p.2 ++ [.uiWrite ("**All identified ingredients:** " ++ all_ingredients)]
        ++ s.2 ++ [.uiError "Failed to suggest a recipe based on the identified ingredients."])
  else
    (none, p.2 ++ [.uiWarning "Please upload an image or take a picture to continue."])

/-- A remote call outcome on which analyze_ingredient and
suggest_single_recipe return None: a raised exception, or a response whose
choices list or first content is falsy. -/
def apiFails : ApiResult → Bool
  | .raised _ => true
  | .ok choices =>
    match choices.head? with
    | some c => !(strTruthy c)
    | none => true

/-- The Quality Gate rejection condition of process_image: resolution below
the floor, or blurry at the default threshold. -/
def gate_rejects (image : Img) : Prop :=
  image.width < 300 ∨ image.height < 300 ∨ is_image_blurry image 100 = true

/-- Keeps a per-image recognition result only when it is truthy, mirroring
the `if ingredients:` test of the orchestrator loop. -/
def truthyResult : Option String → Option String
  | none => none
  | some s => if s = "" then none else some s

/-- Recognizes suggester-call events in a trace. -/
def isSuggesterCall : Event → Bool
  | .suggesterCall _ _ => true
  | _ => false

/-- Recognizes recognizer-call events in a trace. -/
def isRecognizerCall : Event → Bool
  | .recognizerCall _ => true
  | _ => false

/-- Recognizes recipe-display events in a trace. -/
def isRecipeShown : Event → Bool
  | .recipeShown _ => true
  | _ => false

/-! Concrete inputs used to exercise the definitions. -/

/-- Value of a vertical one-pixel stripe pattern at column c. -/
def stripeVal (c : Nat) : Nat :=
  if c % 2 = 0 then 255 else 0

/-- A 300 x 300 image of alternating white and black one-pixel vertical
stripes; its edge-filtered variance is far above the blur threshold. -/
def stripesImg : Img :=
  { width := 300, height := 300,
    px := fun _ c => if c % 2 = 0 then (255, 255, 255) else (0, 0, 0) }

/-- A 100 x 400 black image, below the resolution floor. -/
def lowresImg : Img :=
  { width := 100, height := 400, px := fun _ _ => (0, 0, 0) }

/-- A trivial stand-in for the external JPEG encoder. -/
def zeroJpeg : Img → Nat → List Nat :=
  fun _ _ => []

/-- An upload that passes the gate and recognizes successfully. -/
def stripeUpload : Upload :=
  { name := "a.jpg", image := stripesImg, api := .ok [some "tomato, onion"] }

/-- An upload that passes the gate but whose recognizer call raises. -/
def failUpload : Upload :=
  { name := "b.jpg", image := stripesImg, api := .raised "timeout" }

/-- An upload rejected by the resolution floor. -/
def lowresUpload : Upload :=
  { name := "c.png", image := lowresImg, api := .ok [some "garlic"] }

/-! Evaluation of the blur detector on the stripes image. -/

theorem stripes_convertL (r c : Nat) :
    stripesImg.convertL.px r c = stripeVal c := by
  by_cases h : c % 2 = 0 <;>
    simp [Img.convertL, stripesImg, grayPx, stripeVal, h]

theorem findEdges_stripes (r c : Nat) :
    (findEdges stripesImg.convertL).px r c = stripeVal c := by
  have hwd : stripesImg.convertL.width = 300 := rfl
  have hht : stripesImg.convertL.height = 300 := rfl
  unfold findEdges
  simp only [hwd, hht]
  split
  · exact stripes_convertL r c
  · rename_i hin
    push_neg at hin
    obtain ⟨hr0, hc0, _, _, _, _⟩ := hin
    simp only [stripes_convertL]
    rcases Nat.mod_two_eq_zero_or_one c with hc | hc
    · have h1 : (c - 1) % 2 = 1 := by omega
      have h2 : (c + 1) % 2 = 1 := by omega
      simp [stripeVal, hc, h1, h2, clamp255]
    · have h1 : (c - 1) % 2 = 0 := by omega
      have h2 : (c + 1) % 2 = 0 := by omega
      simp [stripeVal, hc, h1, h2, clamp255]

theorem stripe_sum (n : Nat) :
    (∑ c ∈ Finset.range (2 * n), (stripeVal c : ℚ)) = n * 255 := by
  induction n with
  | zero => simp
  | succ k ih =>
    have h2 : 2 * (k + 1) = 2 * k + 1 + 1 := by ring
    have ha : stripeVal (2 * k) = 255 := by
      have h : (2 * k) % 2 = 0 := by omega
      simp [stripeVal, h]
    have hb : stripeVal (2 * k + 1) = 0 := by
      have h : (2 * k + 1) % 2 = 1 := by omega
      simp [stripeVal, h]
    rw [h2, Finset.sum_range_succ, Finset.sum_range_succ, ih, ha, hb]
    push_cast
    ring

theorem npMean_stripesEdges :
    npMean (findEdges stripesImg.convertL) = 255 / 2 := by
  have hw : (findEdges stripesImg.convertL).width = 300 := rfl
  have hh : (findEdges stripesImg.convertL).height = 300 := rfl
  unfold npMean
  simp only [hw, hh]
  have hrow : ∀ r ∈ Finset.range 300,
      (∑ c ∈ Finset.range 300, ((findEdges stripesImg.convertL).px r c : ℚ)) =
        (38250 : ℚ) := by
    intro r _
    have h1 : (∑ c ∈ Finset.range 300, ((findEdges stripesImg.convertL).px r c : ℚ)) =
        ∑ c ∈ Finset.range 300, (stripeVal c : ℚ) :=
      Finset.sum_congr rfl fun c _ => by rw [findEdges_stripes]
    rw [h1, show (300 : ℕ) = 2 * 150 from by norm_num, stripe_sum]
    norm_num
  rw [Finset.sum_congr rfl hrow, Finset.sum_const, Finset.card_range]
  norm_num

theorem edgeVariance_stripesImg : edgeVariance stripesImg = 65025 / 4 := by
  have hw : (findEdges stripesImg.convertL).width = 300 := rfl
  have hh : (findEdges stripesImg.convertL).height = 300 := rfl
  unfold edgeVariance npVar
  simp only [hw, hh, npMean_stripesEdges]
  have hrow : ∀ r ∈ Finset.range 300,
      (∑ c ∈ Finset.range 300,
        (((findEdges stripesImg.convertL).px r c : ℚ) - 255 / 2) ^ 2) =
        (4876875 : ℚ) := by
    intro r _
    have h1 : (∑ c ∈ Finset.range 300,
        (((findEdges stripesImg.convertL).px r c : ℚ) - 255 / 2) ^ 2) =
        ∑ c ∈ Finset.range 300, (((stripeVal c : ℚ) - 255 / 2) ^ 2) :=
      Finset.sum_congr rfl fun c _ => by rw [findEdges_stripes]
    have h2 : ∀ c ∈ Finset.range 300,
        ((stripeVal c : ℚ) - 255 / 2) ^ 2 = (65025 / 4 : ℚ) := by
      intro c _
      by_cases h : c % 2 = 0 <;> simp [stripeVal, h] <;> norm_num
    rw [h1, Finset.sum_congr rfl h2, Finset.sum_const, Finset.card_range]
    norm_num
  rw [Finset.sum_congr rfl hrow, Finset.sum_const, Finset.card_range]
  norm_num

theorem is_image_blurry_stripesImg : is_image_blurry stripesImg 100 = false := by
  show decide (npVar (findEdges stripesImg.convertL) < 100) = false
  have h : npVar (findEdges stripesImg.convertL) = 65025 / 4 :=
    edgeVariance_stripesImg
  rw [h]
  simp only [decide_eq_false_iff_not]
  norm_num

/-! Shape lemmas for the two remote-call wrappers. -/

theorem analyze_events_shape (image_bytes : List Nat) (api : ApiResult) :
    (analyze_ingredient image_bytes api).2 = [.recognizerCall image_bytes] ∨
    ∃ m, (analyze_ingredient image_bytes api).2 =
      [.recognizerCall image_bytes, .uiError m] := by
  cases api with
  | raised e => exact Or.inr ⟨_, rfl⟩
  | ok choices =>
    cases choices with
    | nil => exact Or.inr ⟨_, rfl⟩
    | cons c rest =>
      by_cases h : strTruthy c = true
      · exact Or.inl (by simp [analyze_ingredient, h])
      · have h' : strTruthy c = false := by simpa using h
        exact Or.inr ⟨"Failed to identify ingredients. Please try again.",
          by simp [analyze_ingredient, h']⟩

theorem analyze_fst_of_fails (image_bytes : List Nat) (api : ApiResult)
    (h : apiFails api = true) : (analyze_ingredient image_bytes api).1 = none := by
  cases api with
  | raised e => rfl
  | ok choices =>
    cases choices with
    | nil => rfl
    | cons c rest =>
      have h' : strTruthy c = false := by simpa [apiFails] using h
      simp [analyze_ingredient, h']

theorem analyze_fails_uiError (image_bytes : List Nat) (api : ApiResult)
    (h : apiFails api = true) :
    ∃ m, Event.uiError m ∈ (analyze_ingredient image_bytes api).2 := by
  cases api with
  | raised e => exact ⟨"An error occurred: " ++ e, by simp [analyze_ingredient]⟩
  | ok choices =>
    cases choices with
    | nil =>
      exact ⟨"Failed to identify ingredients. Please try again.",
        by simp [analyze_ingredient]⟩
    | cons c rest =>
      have h' : strTruthy c = false := by simpa [apiFails] using h
      exact ⟨"Failed to identify ingredients. Please try again.",
        by simp [analyze_ingredient, h']⟩

theorem analyze_filter_recognizer (image_bytes : List Nat) (api : ApiResult) :
    (analyze_ingredient image_bytes api).2.filter isRecognizerCall =
      [.recognizerCall image_bytes] := by
  rcases analyze_events_shape image_bytes api with h | ⟨m, h⟩ <;>
    rw [h] <;> simp [List.filter, isRecognizerCall]

theorem analyze_event_tags (image_bytes : List Nat) (api : ApiResult) :
    ∀ e ∈ (analyze_ingredient image_bytes api).2,
      isSuggesterCall e = false ∧ isRecipeShown e = false := by
  rcases analyze_events_shape image_bytes api with h | ⟨m, h⟩ <;> rw [h] <;>
    intro e he <;> simp only [List.mem_cons, List.not_mem_nil, or_false] at he
  · rw [he]; exact ⟨rfl, rfl⟩
  · rcases he with rfl | rfl <;> exact ⟨rfl, rfl⟩

theorem suggest_events_shape (ingredients : String) (servings : Nat)
    (api : ApiResult) :
    (suggest_single_recipe ingredients servings api).2 =
      [.suggesterCall ingredients servings] ∨
    ∃ m, (suggest_single_recipe ingredients servings api).2 =
      [.suggesterCall ingredients servings, .uiError m] := by
  cases api with
  | raised e => exact Or.inr ⟨_, rfl⟩
  | ok choices =>
    cases choices with
    | nil => exact Or.inr ⟨_, rfl⟩
    | cons c rest =>
      by_cases h : strTruthy c = true
      · exact Or.inl (by simp [suggest_single_recipe, h])
      · have h' : strTruthy c = false := by simpa using h
        exact Or.inr ⟨"Failed to suggest a recipe. Please try again.",
          by simp [suggest_single_recipe, h']⟩

theorem suggest_fst_of_fails (ingredients : String) (servings : Nat)
    (api : ApiResult) (h : apiFails api = true) :
    (suggest_single_recipe ingredients servings api).1 = none := by
  cases api with
  | raised e => rfl
  | ok choices =>
    cases choices with
    | nil => rfl
    | cons c rest =>
      have h' : strTruthy c = false := by simpa [apiFails] using h
      simp [suggest_single_recipe, h']

theorem suggest_filter_suggester (ingredients : String) (servings : Nat)
    (api : ApiResult) :
    (suggest_single_recipe ingredients servings api).2.filter isSuggesterCall =
      [.suggesterCall ingredients servings] := by
  rcases suggest_events_shape ingredients servings api with h | ⟨m, h⟩ <;>
    rw [h] <;> simp [List.filter, isSuggesterCall]

theorem suggest_no_recipeShown (ingredients : String) (servings : Nat)
    (api : ApiResult) :
    ∀ e ∈ (suggest_single_recipe ingredients servings api).2,
      isRecipeShown e = false := by
  rcases suggest_events_shape ingredients servings api with h | ⟨m, h⟩ <;> rw [h] <;>
    intro e he <;> simp only [List.mem_cons, List.not_mem_nil, or_false] at he
  · rw [he]; rfl
  · rcases he with rfl | rfl <;> rfl

/-! Shape lemmas for process_image. -/

theorem process_image_resolution (jpegEncode : Img → Nat → List Nat)
    (image : Img) (api : ApiResult)
    (h : image.width < 300 ∨ image.height < 300) :
    process_image jpegEncode image api =
      (none, [.uiError "The resolution is too low. Please upload a higher-resolution image."]) := by
  unfold process_image
  rw [if_pos h]

theorem process_image_blurry (jpegEncode : Img → Nat → List Nat)
    (image : Img) (api : ApiResult)
    (h1 : ¬(image.width < 300 ∨ image.height < 300))
    (h2 : is_image_blurry image 100 = true) :
    process_image jpegEncode image api =
      (none, [.blurCheck,
        .uiError "The image is too blurry. Please upload a clearer image."]) := by
  unfold process_image
  rw [if_neg h1, if_pos h2]

theorem process_image_pass (jpegEncode : Img → Nat → List Nat)
    (image : Img) (api : ApiResult)
    (h1 : ¬(image.width < 300 ∨ image.height < 300))
    (h2 : is_image_blurry image 100 = false) :
    process_image jpegEncode image api =
      ((analyze_ingredient (compress_image jpegEncode image 85) api).1,
        .blurCheck :: (analyze_ingredient (compress_image jpegEncode image 85) api).2) := by
  unfold process_image
  rw [if_neg h1, if_neg (by simp [h2])]

theorem process_image_stripes (jpegEncode : Img → Nat → List Nat)
    (api : ApiResult) :
    process_image jpegEncode stripesImg api =
      ((analyze_ingredient (compress_image jpegEncode stripesImg 85) api).1,
        .blurCheck :: (analyze_ingredient (compress_image jpegEncode stripesImg 85) api).2) :=
  process_image_pass jpegEncode stripesImg api (by decide) is_image_blurry_stripesImg

theorem process_event_tags (jpegEncode : Img → Nat → List Nat)
    (image : Img) (api : ApiResult) :
    ∀ e ∈ (process_image jpegEncode image api).2,
      isSuggesterCall e = false ∧ isRecipeShown e = false := by
  by_cases h1 : image.width < 300 ∨ image.height < 300
  · rw [process_image_resolution jpegEncode image api h1]
    intro e he
    simp only [List.mem_cons, List.not_mem_nil, or_false] at he
    rw [he]; exact ⟨rfl, rfl⟩
  · by_cases h2 : is_image_blurry image 100 = true
    · rw [process_image_blurry jpegEncode image api h1 h2]
      intro e he
      simp only [List.mem_cons, List.not_mem_nil, or_false] at he
      rcases he with rfl | rfl <;> exact ⟨rfl, rfl⟩
    · rw [process_image_pass jpegEncode image api h1 (by simpa using h2)]
      intro e he
      simp only [List.mem_cons] at he
      rcases he with rfl | he
      · exact ⟨rfl, rfl⟩
      · exact analyze_event_tags _ _ e he

theorem process_gate_rejects (jpegEncode : Img → Nat → List Nat)
    (image : Img) (api : ApiResult) (h : gate_rejects image) :
    (process_image jpegEncode image api).1 = none ∧
    ∀ e ∈ (process_image jpegEncode image api).2,
      isRecognizerCall e = false ∧ isSuggesterCall e = false := by
  by_cases h1 : image.width < 300 ∨ image.height < 300
  · rw [process_image_resolution jpegEncode image api h1]
    refine ⟨rfl, ?_⟩
    intro e he
    simp only [List.mem_cons, List.not_mem_nil, or_false] at he
    rw [he]; exact ⟨rfl, rfl⟩
  · have h2 : is_image_blurry image 100 = true := by
      rcases h with ha | hb | hc
      · exact absurd (Or.inl ha) h1
      · exact absurd (Or.inr hb) h1
      · exact hc
    rw [process_image_blurry jpegEncode image api h1 h2]
    refine ⟨rfl, ?_⟩
    intro e he
    simp only [List.mem_cons, List.not_mem_nil, or_false] at he
    rcases he with rfl | rfl <;> exact ⟨rfl, rfl⟩

/-! Lemmas about the orchestrator loop. -/

theorem gatherUploads_append (jpegEncode : Img → Nat → List Nat)
    (xs ys : List Upload) :
    gatherUploads jpegEncode (xs ++ ys) =
      ((gatherUploads jpegEncode xs).1 ++ (gatherUploads jpegEncode ys).1,
        (gatherUploads jpegEncode xs).2 ++ (gatherUploads jpegEncode ys).2) := by
  induction xs with
  | nil => simp [gatherUploads]
  | cons u rest ih =>
    simp only [List.cons_append, gatherUploads]
    rcases h : (process_image jpegEncode u.image u.api).1 with _ | s
    · simp [h, ih, List.append_assoc]
    · by_cases hs : s = "" <;> simp [h, hs, ih, List.append_assoc]

theorem gatherUploads_fst (jpegEncode : Img → Nat → List Nat)
    (us : List Upload) :
    (gatherUploads jpegEncode us).1 =
      us.filterMap
        (fun u => truthyResult (process_image jpegEncode u.image u.api).1) := by
  induction us with
  | nil => rfl
  | cons u rest ih =>
    simp only [gatherUploads, List.filterMap_cons]
    rcases h : (process_image jpegEncode u.image u.api).1 with _ | s
    · simp [h, truthyResult, ih]
    · by_cases hs : s = "" <;> simp [h, hs, truthyResult, ih]

theorem gatherUploads_event_tags (jpegEncode : Img → Nat → List Nat)
    (us : List Upload) :
    ∀ e ∈ (gatherUploads jpegEncode us).2,
      isSuggesterCall e = false ∧ isRecipeShown e = false := by
  induction us with
  | nil => intro e he; simp [gatherUploads] at he
  | cons u rest ih =>
    intro e he
    simp only [gatherUploads] at he
    rcases h : (process_image jpegEncode u.image u.api).1 with _ | s
    · simp only [h, List.mem_append] at he
      rcases he with he | he
      · exact process_event_tags jpegEncode u.image u.api e he
      · exact ih e he
    · simp only [h] at he
      by_cases hs : s = ""
      · rw [if_pos hs] at he
        simp only [List.mem_append] at he
        rcases he with he | he
        · exact process_event_tags jpegEncode u.image u.api e he
        · exact ih e he
      · rw [if_neg hs] at he
        simp only [List.mem_append, List.mem_cons, List.not_mem_nil, or_false] at he
        rcases he with (he | rfl) | he
        · exact process_event_tags jpegEncode u.image u.api e he
        · exact ⟨rfl, rfl⟩
        · exact ih e he

theorem gather_all_rejected (jpegEncode : Img → Nat → List Nat)
    (us : List Upload) (h : ∀ u ∈ us, gate_rejects u.image) :
    (gatherUploads jpegEncode us).1 = [] ∧
    ∀ e ∈ (gatherUploads jpegEncode us).2,
      isRecognizerCall e = false ∧ isSuggesterCall e = false := by
  induction us with
  | nil => exact ⟨rfl, by intro e he; simp [gatherUploads] at he⟩
  | cons u rest ih =>
    have hu := h u (by simp)
    have hrest := ih fun v hv => h v (by simp [hv])
    obtain ⟨h1, h2⟩ := process_gate_rejects jpegEncode u.image u.api hu
    simp only [gatherUploads, h1]
    refine ⟨hrest.1, ?_⟩
    intro e he
    simp only [List.mem_append] at he
    rcases he with he | he
    · exact h2 e he
    · exact hrest.2 e he

theorem ingredients_phase_uploads (jpegEncode : Img → Nat → List Nat)
    (uploads : List Upload) (camera : Option Camera) (h : uploads ≠ []) :
    ingredients_phase jpegEncode uploads camera =
      gatherUploads jpegEncode uploads := by
  unfold ingredients_phase
  rw [List.isEmpty_eq_false.mpr h]
  rfl

theorem ingredients_phase_event_tags (jpegEncode : Img → Nat → List Nat)
    (uploads : List Upload) (camera : Option Camera) :
    ∀ e ∈ (ingredients_phase jpegEncode uploads camera).2,
      isSuggesterCall e = false ∧ isRecipeShown e = false := by
  rcases hu : uploads with _ | ⟨u, rest⟩
  · unfold ingredients_phase
    rcases camera with _ | cam
    · intro e he; simp at he
    · simp only [List.isEmpty_nil, Bool.not_true, Bool.false_eq_true, if_false]
      intro e he
      rcases h : (process_image jpegEncode cam.image cam.api).1 with _ | s
      · simp only [h] at he
        exact process_event_tags jpegEncode cam.image cam.api e he
      · simp only [h] at he
        by_cases hs : s = ""
        · rw [if_pos hs] at he
          exact process_event_tags jpegEncode cam.image cam.api e he
        · rw [if_neg hs] at he
          simp only [List.mem_append, List.mem_cons, List.not_mem_nil, or_false] at he
          rcases he with he | rfl
          · exact process_event_tags jpegEncode cam.image cam.api e he
          · exact ⟨rfl, rfl⟩
  · rw [ingredients_phase_uploads jpegEncode (u :: rest) camera (by simp)]
    exact gatherUploads_event_tags jpegEncode (u :: rest)

/-! Claim theorems. -/

/-- C1: for every image whose width is less than 300 or whose height is less
than 300, process_image rejects it with the resolution reason, regardless of
the pixel content, and neither the blur check nor any remote call is
performed for that image. -/
theorem C1_resolution_reject (jpegEncode : Img → Nat → List Nat) (image : Img)
    (api : ApiResult) (h : image.width < 300 ∨ image.height < 300) :
    process_image jpegEncode image api =
      (none, [.uiError "The resolution is too low. Please upload a higher-resolution image."]) ∧
    Event.blurCheck ∉ (process_image jpegEncode image api).2 ∧
    (∀ b, Event.recognizerCall b ∉ (process_image jpegEncode image api).2) ∧
    (∀ i s, Event.suggesterCall i s ∉ (process_image jpegEncode image api).2) := by
  have he := process_image_resolution jpegEncode image api h
  refine ⟨he, ?_, ?_, ?_⟩ <;> rw [he] <;> simp

/-- Witness for C1 at a concrete 100 x 400 image. -/
theorem C1_resolution_reject_witness :
    process_image zeroJpeg lowresImg (ApiResult.ok [some "garlic"]) =
      (none, [.uiError "The resolution is too low. Please upload a higher-resolution image."]) ∧
    Event.blurCheck ∉ (process_image zeroJpeg lowresImg (ApiResult.ok [some "garlic"])).2 ∧
    (∀ b, Event.recognizerCall b ∉
      (process_image zeroJpeg lowresImg (ApiResult.ok [some "garlic"])).2) ∧
    (∀ i s, Event.suggesterCall i s ∉
      (process_image zeroJpeg lowresImg (ApiResult.ok [some "garlic"])).2) :=
  C1_resolution_reject zeroJpeg lowresImg (ApiResult.ok [some "garlic"])
    (Or.inl (by decide))

/-- C2: for every image with adequate resolution, if the variance of the
edge-filtered grayscale image is strictly below 100 the gate rejects with
the blur reason, and if it is at or above 100 the gate accepts and
process_image proceeds to compression and the recognizer call. -/
theorem C2_blur_gate (jpegEncode : Img → Nat → List Nat) (image : Img)
    (api : ApiResult) (hw : 300 ≤ image.width) (hh : 300 ≤ image.height) :
    (edgeVariance image < 100 →
      quality_gate image =
        (some "The image is too blurry. Please upload a clearer image.", image) ∧
      process_image jpegEncode image api =
        (none, [.blurCheck,
          .uiError "The image is too blurry. Please upload a clearer image."])) ∧
    (100 ≤ edgeVariance image →
      quality_gate image = (none, image) ∧
      process_image jpegEncode image api =
        ((analyze_ingredient (compress_image jpegEncode image 85) api).1,
          .blurCheck ::
            (analyze_ingredient (compress_image jpegEncode image 85) api).2)) := by
  have hres : ¬(image.width < 300 ∨ image.height < 300) := by omega
  constructor
  · intro hv
    have hv' : npVar (findEdges image.convertL) < 100 := hv
    have hblur : is_image_blurry image 100 = true := by
      show decide (npVar (findEdges image.convertL) < 100) = true
      rw [decide_eq_true_eq]
      exact hv'
    refine ⟨?_, process_image_blurry jpegEncode image api hres hblur⟩
    simp only [quality_gate]
    rw [if_neg hres, if_pos hv']
  · intro hv
    have hv' : ¬(npVar (findEdges image.convertL) < 100) := not_lt.mpr hv
    have hblur : is_image_blurry image 100 = false := by
      show decide (npVar (findEdges image.convertL) < 100) = false
      rw [decide_eq_false_iff_not]
      exact hv'
    refine ⟨?_, process_image_pass jpegEncode image api hres hblur⟩
    simp only [quality_gate]
    rw [if_neg hres, if_neg hv']

/-- Witness for C2 at the concrete stripes image. -/
theorem C2_blur_gate_witness :
    (edgeVariance stripesImg < 100 →
      quality_gate stripesImg =
        (some "The image is too blurry. Please upload a clearer image.", stripesImg) ∧
      process_image zeroJpeg stripesImg (ApiResult.ok [some "tomato, onion"]) =
        (none, [.blurCheck,
          .uiError "The image is too blurry. Please upload a clearer image."])) ∧
    (100 ≤ edgeVariance stripesImg →
      quality_gate stripesImg = (none, stripesImg) ∧
      process_image zeroJpeg stripesImg (ApiResult.ok [some "tomato, onion"]) =
        ((analyze_ingredient (compress_image zeroJpeg stripesImg 85)
            (ApiResult.ok [some "tomato, onion"])).1,
          .blurCheck ::
            (analyze_ingredient (compress_image zeroJpeg stripesImg 85)
              (ApiResult.ok [some "tomato, onion"])).2)) :=
  C2_blur_gate zeroJpeg stripesImg (ApiResult.ok [some "tomato, onion"])
    (by decide) (by decide)

/-- C8: the Compressor is deterministic: two invocations of compress_image
with an identical input image and the same quality value return equal byte
buffers. The embedding of compress_image is a pure function of the encoder,
the image and the quality, since the source reads no ambient state there. -/
theorem C8_compress_deterministic (jpegEncode : Img → Nat → List Nat)
    (image1 image2 : Img) (quality1 quality2 : Nat)
    (h1 : image1 = image2) (h2 : quality1 = quality2) :
    compress_image jpegEncode image1 quality1 =
      compress_image jpegEncode image2 quality2 := by
  rw [h1, h2]

/-- Witness for C8 at a concrete image and quality. -/
theorem C8_compress_deterministic_witness :
    compress_image zeroJpeg lowresImg 85 = compress_image zeroJpeg lowresImg 85 :=
  C8_compress_deterministic zeroJpeg lowresImg lowresImg 85 85 rfl rfl

/-- C9: the Quality Gate has no side effect beyond its verdict: the image
the caller holds after the gate has the same dimensions and the same pixel
data as the input image. -/
theorem C9_gate_no_mutation (image : Img) :
    (quality_gate image).2.width = image.width ∧
    (quality_gate image).2.height = image.height ∧
    ∀ r c, (quality_gate image).2.px r c = image.px r c := by
  have h : (quality_gate image).2 = image := by
    simp only [quality_gate]
    split
    · rfl
    · split <;> rfl
  rw [h]
  exact ⟨rfl, rfl, fun r c => rfl⟩

/-- C10: when a run supplies both uploaded files and a camera capture, the
run is identical to the run with no camera capture at all: the camera image
is never processed and contributes nothing. -/
theorem C10_camera_ignored (jpegEncode : Img → Nat → List Nat)
    (uploads : List Upload) (camera : Option Camera) (servings : Nat)
    (suggestApi : ApiResult) (h : uploads ≠ []) :
    runPipeline jpegEncode uploads camera servings suggestApi =
      runPipeline jpegEncode uploads none servings suggestApi := by
  have hphase : ingredients_phase jpegEncode uploads camera =
      ingredients_phase jpegEncode uploads none := by
    rw [ingredients_phase_uploads jpegEncode uploads camera h,
      ingredients_phase_uploads jpegEncode uploads none h]
  simp only [runPipeline, hphase]

/-- Witness for C10 at a concrete upload batch and camera capture. -/
theorem C10_camera_ignored_witness :
    runPipeline zeroJpeg [lowresUpload]
        (some { image := lowresImg, api := ApiResult.ok [some "pepper"] }) 1
        (ApiResult.ok [some "soup"]) =
      runPipeline zeroJpeg [lowresUpload] none 1 (ApiResult.ok [some "soup"]) :=
  C10_camera_ignored zeroJpeg [lowresUpload]
    (some { image := lowresImg, api := ApiResult.ok [some "pepper"] }) 1
    (ApiResult.ok [some "soup"]) (by simp)

/-- C3: for every run with at least one successful recognition result, the
aggregated ingredient string fed to the Suggester is exactly the successful
per-image results joined with ", " in submission order, and the Suggester is
invoked exactly once, receiving that string and the servings count. -/
theorem C3_aggregation (jpegEncode : Img → Nat → List Nat)
    (uploads : List Upload) (camera : Option Camera) (servings : Nat)
    (suggestApi : ApiResult)
    (h : (ingredients_phase jpegEncode uploads camera).1 ≠ []) :
    (runPipeline jpegEncode uploads camera servings suggestApi).2.filter
        isSuggesterCall =
      [Event.suggesterCall
        (String.intercalate ", " (ingredients_phase jpegEncode uploads camera).1)
        servings] ∧
    (uploads ≠ [] →
      (ingredients_phase jpegEncode uploads camera).1 =
        uploads.filterMap
          (fun u => truthyResult (process_image jpegEncode u.image u.api).1)) := by
  constructor
  · have hne : (ingredients_phase jpegEncode uploads camera).1.isEmpty = false :=
      List.isEmpty_eq_false.mpr h
    have hphase : (ingredients_phase jpegEncode uploads camera).2.filter
        isSuggesterCall = [] :=
      List.filter_eq_nil_iff.mpr fun e he => by
        simp [(ingredients_phase_event_tags jpegEncode uploads camera e he).1]
    simp only [runPipeline, hne, Bool.not_false, if_true]
    rcases hs : (suggest_single_recipe
        (String.intercalate ", " (ingredients_phase jpegEncode uploads camera).1)
        servings suggestApi).1 with _ | r
    · simp only [hs]
      simp [List.filter_append, hphase, suggest_filter_suggester, List.filter,
        isSuggesterCall]
    · simp only [hs]
      by_cases hr : r = "" <;>
        simp [hr, List.filter_append, hphase, suggest_filter_suggester,
          List.filter, isSuggesterCall]
  · intro hu
    rw [ingredients_phase_uploads jpegEncode uploads camera hu]
    exact gatherUploads_fst jpegEncode uploads

/-- One step of the upload loop on an upload with a truthy recognition
result. -/
theorem gatherUploads_cons_some (jpegEncode : Img → Nat → List Nat)
    (u : Upload) (rest : List Upload) (s : String)
    (h : (process_image jpegEncode u.image u.api).1 = some s) (hs : s ≠ "") :
    gatherUploads jpegEncode (u :: rest) =
      (s :: (gatherUploads jpegEncode rest).1,
        (process_image jpegEncode u.image u.api).2 ++
          [.uiSuccess ("Identified Ingredients in " ++ u.name ++ ": " ++ s)] ++
          (gatherUploads jpegEncode rest).2) := by
  simp only [gatherUploads, h]
  rw [if_neg hs]

/-- Evaluation of the upload loop on the single stripes upload. -/
theorem gather_stripeUpload :
    gatherUploads zeroJpeg [stripeUpload] =
      (["tomato, onion"],
        [.blurCheck, .recognizerCall [],
          .uiSuccess "Identified Ingredients in a.jpg: tomato, onion"]) := by
  have hp : process_image zeroJpeg stripesImg (ApiResult.ok [some "tomato, onion"]) =
      (some "tomato, onion", [.blurCheck, .recognizerCall []]) := by
    rw [process_image_stripes]
    rfl
  have h1 : (process_image zeroJpeg stripeUpload.image stripeUpload.api).1 =
      some "tomato, onion" := by
    show (process_image zeroJpeg stripesImg (ApiResult.ok [some "tomato, onion"])).1 =
      some "tomato, onion"
    rw [hp]
  have h2 : (process_image zeroJpeg stripeUpload.image stripeUpload.api).2 =
      [.blurCheck, .recognizerCall []] := by
    show (process_image zeroJpeg stripesImg (ApiResult.ok [some "tomato, onion"])).2 =
      [.blurCheck, .recognizerCall []]
    rw [hp]
  rw [gatherUploads_cons_some zeroJpeg stripeUpload [] "tomato, onion" h1
    (by decide), h2]
  rfl

/-- Witness for C3 at a run with one accepted, recognized stripes upload. -/
theorem C3_aggregation_witness :
    (runPipeline zeroJpeg [stripeUpload] none 2 (ApiResult.ok [some "soup recipe"])).2.filter
        isSuggesterCall =
      [Event.suggesterCall
        (String.intercalate ", " (ingredients_phase zeroJpeg [stripeUpload] none).1) 2] ∧
    ([stripeUpload] ≠ ([] : List Upload) →
      (ingredients_phase zeroJpeg [stripeUpload] none).1 =
        [stripeUpload].filterMap
          (fun u => truthyResult (process_image zeroJpeg u.image u.api).1)) :=
  C3_aggregation zeroJpeg [stripeUpload] none 2 (ApiResult.ok [some "soup recipe"])
    (by rw [ingredients_phase_uploads zeroJpeg [stripeUpload] none (by simp),
          gather_stripeUpload]; simp)

/-- C4: for every image that passes the gate but whose recognition call
fails (raised error, empty choices, or empty content), the Recognizer
returns None after surfacing an error message, exactly one recognizer call
is made for it (no retry), the image contributes nothing to the gathered
ingredients, and the loop still processes every other image of the batch. -/
theorem C4_recognizer_failure (jpegEncode : Img → Nat → List Nat)
    (pre post : List Upload) (u : Upload)
    (hw : 300 ≤ u.image.width) (hh : 300 ≤ u.image.height)
    (hb : is_image_blurry u.image 100 = false)
    (hf : apiFails u.api = true) :
    (analyze_ingredient (compress_image jpegEncode u.image 85) u.api).1 = none ∧
    (∃ m, Event.uiError m ∈
      (analyze_ingredient (compress_image jpegEncode u.image 85) u.api).2) ∧
    (process_image jpegEncode u.image u.api).2.filter isRecognizerCall =
      [.recognizerCall (compress_image jpegEncode u.image 85)] ∧
    (gatherUploads jpegEncode (pre ++ u :: post)).1 =
      (gatherUploads jpegEncode pre).1 ++ (gatherUploads jpegEncode post).1 ∧
    (gatherUploads jpegEncode (pre ++ u :: post)).2 =
      (gatherUploads jpegEncode pre).2 ++ (process_image jpegEncode u.image u.api).2
        ++ (gatherUploads jpegEncode post).2 := by
  have hres : ¬(u.image.width < 300 ∨ u.image.height < 300) := by omega
  have hp := process_image_pass jpegEncode u.image u.api hres hb
  have ha := analyze_fst_of_fails (compress_image jpegEncode u.image 85) u.api hf
  have hnone : (process_image jpegEncode u.image u.api).1 = none := by
    rw [hp]; exact ha
  have hcons : gatherUploads jpegEncode (u :: post) =
      ((gatherUploads jpegEncode post).1,
        (process_image jpegEncode u.image u.api).2 ++
          (gatherUploads jpegEncode post).2) := by
    simp only [gatherUploads, hnone]
  refine ⟨ha, analyze_fails_uiError _ _ hf, ?_, ?_, ?_⟩
  · rw [hp]
    simp [List.filter_cons, isRecognizerCall,
      analyze_filter_recognizer (compress_image jpegEncode u.image 85) u.api]
  · rw [gatherUploads_append jpegEncode pre (u :: post), hcons]
  · rw [gatherUploads_append jpegEncode pre (u :: post), hcons]
    simp [List.append_assoc]

/-- Witness for C4: a raised recognizer call on the stripes image, followed
by one more image in the batch. -/
theorem C4_recognizer_failure_witness :
    (analyze_ingredient (compress_image zeroJpeg failUpload.image 85) failUpload.api).1 = none ∧
    (∃ m, Event.uiError m ∈
      (analyze_ingredient (compress_image zeroJpeg failUpload.image 85) failUpload.api).2) ∧
    (process_image zeroJpeg failUpload.image failUpload.api).2.filter isRecognizerCall =
      [.recognizerCall (compress_image zeroJpeg failUpload.image 85)] ∧
    (gatherUploads zeroJpeg ([] ++ failUpload :: [lowresUpload])).1 =
      (gatherUploads zeroJpeg []).1 ++ (gatherUploads zeroJpeg [lowresUpload]).1 ∧
    (gatherUploads zeroJpeg ([] ++ failUpload :: [lowresUpload])).2 =
      (gatherUploads zeroJpeg []).2 ++
        (process_image zeroJpeg failUpload.image failUpload.api).2 ++
        (gatherUploads zeroJpeg [lowresUpload]).2 :=
  C4_recognizer_failure zeroJpeg [] [lowresUpload] failUpload
    (by decide) (by decide) is_image_blurry_stripesImg rfl

/-- The ingredients phase of a run in which every processed image is
rejected by the gate: it yields no ingredients and makes no remote call. -/
theorem phase_all_rejected (jpegEncode : Img → Nat → List Nat)
    (uploads : List Upload) (camera : Option Camera)
    (hu : ∀ u ∈ uploads, gate_rejects u.image)
    (hc : uploads = [] → ∀ cam, camera = some cam → gate_rejects cam.image) :
    (ingredients_phase jpegEncode uploads camera).1 = [] ∧
    ∀ e ∈ (ingredients_phase jpegEncode uploads camera).2,
      isRecognizerCall e = false ∧ isSuggesterCall e = false := by
  cases uploads with
  | nil =>
    cases camera with
    | none => exact ⟨rfl, by intro e he; simp [ingredients_phase] at he⟩
    | some cam =>
      have hrej := hc rfl cam rfl
      obtain ⟨h1, h2⟩ := process_gate_rejects jpegEncode cam.image cam.api hrej
      constructor
      · simp [ingredients_phase, h1]
      · intro e he
        simp only [ingredients_phase, List.isEmpty_nil, Bool.not_true,
          Bool.false_eq_true, if_false, h1] at he
        exact h2 e he
  | cons u rest =>
    rw [ingredients_phase_uploads jpegEncode (u :: rest) camera (by simp)]
    exact gather_all_rejected jpegEncode (u :: rest) hu

/-- C5: when zero images survive the Quality Gate (or zero are supplied),
the run ends with the resubmission prompt, produces no recipe, and makes no
recognizer or suggester call. -/
theorem C5_no_input (jpegEncode : Img → Nat → List Nat)
    (uploads : List Upload) (camera : Option Camera) (servings : Nat)
    (suggestApi : ApiResult)
    (hu : ∀ u ∈ uploads, gate_rejects u.image)
    (hc : uploads = [] → ∀ cam, camera = some cam → gate_rejects cam.image) :
    (runPipeline jpegEncode uploads camera servings suggestApi).1 = none ∧
    Event.uiWarning "Please upload an image or take a picture to continue." ∈
      (runPipeline jpegEncode uploads camera servings suggestApi).2 ∧
    (∀ b, Event.recognizerCall b ∉
      (runPipeline jpegEncode uploads camera servings suggestApi).2) ∧
    (∀ i s, Event.suggesterCall i s ∉
      (runPipeline jpegEncode uploads camera servings suggestApi).2) := by
  obtain ⟨h1, h2⟩ := phase_all_rejected jpegEncode uploads camera hu hc
  have hrun : runPipeline jpegEncode uploads camera servings suggestApi =
      (none, (ingredients_phase jpegEncode uploads camera).2 ++
        [.uiWarning "Please upload an image or take a picture to continue."]) := by
    simp [runPipeline, h1]
  refine ⟨by rw [hrun], by rw [hrun]; simp, ?_, ?_⟩
  · intro b hb
    rw [hrun] at hb
    simp only [List.mem_append, List.mem_cons, List.not_mem_nil, or_false] at hb
    rcases hb with hb | hb
    · have := (h2 _ hb).1
      simp [isRecognizerCall] at this
    · exact absurd hb (by simp)
  · intro i s hb
    rw [hrun] at hb
    simp only [List.mem_append, List.mem_cons, List.not_mem_nil, or_false] at hb
    rcases hb with hb | hb
    · have := (h2 _ hb).2
      simp [isSuggesterCall] at this
    · exact absurd hb (by simp)

/-- Witness for C5 at a run whose only upload fails the resolution floor. -/
theorem C5_no_input_witness :
    (runPipeline zeroJpeg [lowresUpload] none 1 (ApiResult.ok [some "soup"])).1 = none ∧
    Event.uiWarning "Please upload an image or take a picture to continue." ∈
      (runPipeline zeroJpeg [lowresUpload] none 1 (ApiResult.ok [some "soup"])).2 ∧
    (∀ b, Event.recognizerCall b ∉
      (runPipeline zeroJpeg [lowresUpload] none 1 (ApiResult.ok [some "soup"])).2) ∧
    (∀ i s, Event.suggesterCall i s ∉
      (runPipeline zeroJpeg [lowresUpload] none 1 (ApiResult.ok [some "soup"])).2) :=
  C5_no_input zeroJpeg [lowresUpload] none 1 (ApiResult.ok [some "soup"])
    (by intro u hu
        simp only [List.mem_cons, List.not_mem_nil, or_false] at hu
        rw [hu]
        exact Or.inl (by decide))
    (by intro h; simp at h)

/-- C6: when at least one image was successfully recognized but the
suggester call fails, the run surfaces a failure message, and no recipe is
produced or displayed. -/
theorem C6_suggester_failure (jpegEncode : Img → Nat → List Nat)
    (uploads : List Upload) (camera : Option Camera) (servings : Nat)
    (suggestApi : ApiResult)
    (h1 : (ingredients_phase jpegEncode uploads camera).1 ≠ [])
    (h2 : apiFails suggestApi = true) :
    (runPipeline jpegEncode uploads camera servings suggestApi).1 = none ∧
    Event.uiError "Failed to suggest a recipe based on the identified ingredients." ∈
      (runPipeline jpegEncode uploads camera servings suggestApi).2 ∧
    (∀ r, Event.recipeShown r ∉
      (runPipeline jpegEncode uploads camera servings suggestApi).2) := by
  have hne : (ingredients_phase jpegEncode uploads camera).1.isEmpty = false :=
    List.isEmpty_eq_false.mpr h1
  have hsug := suggest_fst_of_fails
    (String.intercalate ", " (ingredients_phase jpegEncode uploads camera).1)
    servings suggestApi h2
  have hrun : runPipeline jpegEncode uploads camera servings suggestApi =
      (none, (ingredients_phase jpegEncode uploads camera).2 ++
        [.uiWrite ("**All identified ingredients:** " ++
          String.intercalate ", " (ingredients_phase jpegEncode uploads camera).1)]
        ++ (suggest_single_recipe
            (String.intercalate ", " (ingredients_phase jpegEncode uploads camera).1)
            servings suggestApi).2
        ++ [.uiError "Failed to suggest a recipe based on the identified ingredients."]) := by
    simp only [runPipeline, hne, Bool.not_false, if_true, hsug]
  refine ⟨by rw [hrun], by rw [hrun]; simp, ?_⟩
  intro r hr
  rw [hrun] at hr
  simp only [List.mem_append, List.mem_cons, List.not_mem_nil, or_false] at hr
  rcases hr with ((hr | hr) | hr) | hr
  · have := (ingredients_phase_event_tags jpegEncode uploads camera _ hr).2
    simp [isRecipeShown] at this
  · exact absurd hr (by simp)
  · have := suggest_no_recipeShown _ _ _ _ hr
    simp [isRecipeShown] at this
  · exact absurd hr (by simp)

/-- Witness for C6: one successful stripes upload, then a raised suggester
call. -/
theorem C6_suggester_failure_witness :
    (runPipeline zeroJpeg [stripeUpload] none 3 (ApiResult.raised "timeout")).1 = none ∧
    Event.uiError "Failed to suggest a recipe based on the identified ingredients." ∈
      (runPipeline zeroJpeg [stripeUpload] none 3 (ApiResult.raised "timeout")).2 ∧
    (∀ r, Event.recipeShown r ∉
      (runPipeline zeroJpeg [stripeUpload] none 3 (ApiResult.raised "timeout")).2) :=
  C6_suggester_failure zeroJpeg [stripeUpload] none 3 (ApiResult.raised "timeout")
    (by rw [ingredients_phase_uploads zeroJpeg [stripeUpload] none (by simp),
          gather_stripeUpload]; simp)
    rfl

end CookingAssistant
